import Mathlib

/-!
Shallow embedding of `claude-cost-tracker.py`: the session accounting
state machine (start/log/end/status), the static pricing table, and the
report generator's derived metrics and heuristic insights.

Modelling conventions:
* monetary amounts are rationals (the source computes in floating point;
  every computation verified here is exact in ℚ);
* timestamps are natural numbers (seconds); the source stores ISO strings
  and parses them back, a round trip that preserves the instant;
* the active-session file is an `Option SessionSummary`: `none` when
  `current_session.json` does not exist, `some s` when it holds `s`;
* console output is a list of `Msg` values, one per `print` call, keeping
  the semantic payload of each message.
-/

namespace CostTracker

/-- Pricing structure: price per 1,000 input tokens and per 1,000 output
tokens (`ModelPricing` in the source). -/
structure ModelPricing where
  input_price_per_1k : ℚ
  output_price_per_1k : ℚ
deriving DecidableEq

/-- The static pricing table `MODEL_PRICING`, an insertion-ordered map from
model identifier to its pricing entry. -/
def MODEL_PRICING : List (String × ModelPricing) :=
  [("claude-sonnet-4", ⟨3, 15⟩),
   ("claude-opus-4", ⟨15, 75⟩),
   ("claude-haiku-3", ⟨1/4, 5/4⟩),
   ("claude-sonnet-3.5", ⟨3, 15⟩)]

/-- The `claude-sonnet-4` entry, the fallback used for unknown models. -/
def sonnet4Pricing : ModelPricing := ⟨3, 15⟩

/-- One logged usage event (`SessionEntry` in the source). -/
structure SessionEntry where
  timestamp : ℕ
  operation : String
  model : String
  tokens_input : ℕ
  tokens_output : ℕ
  cost_input : ℚ
  cost_output : ℚ
  total_cost : ℚ
  context : String
deriving DecidableEq

/-- A tracked session with its incrementally maintained aggregates
(`SessionSummary` in the source). -/
structure SessionSummary where
  session_id : ℕ
  session_name : String
  start_time : ℕ
  end_time : Option ℕ
  project_path : String
  git_commit_start : Option String
  git_commit_end : Option String
  total_entries : ℕ
  total_tokens_input : ℕ
  total_tokens_output : ℕ
  total_cost : ℚ
  operations : List (String × ℕ)
  models_used : List (String × ℕ)
  entries : List SessionEntry
deriving DecidableEq

/-- One console message; each constructor corresponds to one `print`
call in the source. -/
inductive Msg where
  | noActiveSessionLog
  | noActiveSessionEnd
  | noActiveSessionStatus
  | unknownModelWarning (model : String)
  | sessionStarted (name : String) (id : ℕ)
  | contextNote (ctx : String)
  | loggedUsage (tokens_input tokens_output : ℕ) (cost : ℚ) (model : String)
  | sessionEnded (name : String) (cost : ℚ) (tokens_input tokens_output : ℕ)
  | reportSaved
  | statusActive (name : String)
  | statusCost (c : ℚ)
  | statusEntries (n : ℕ)
  | statusTokens (tokens_input tokens_output : ℕ)
  | lastActivity (operation : String) (time_of_day : ℕ)
deriving DecidableEq

/-- `CostTracker.calculate_cost`: price the token counts against the table;
an unknown model falls back to the `claude-sonnet-4` entry and emits a
warning. Returns `(cost_input, cost_output, total_cost)` plus the warning
messages. -/
def calculate_cost (model : String) (tokens_input tokens_output : ℕ) :
    (ℚ × ℚ × ℚ) × List Msg :=
  match MODEL_PRICING.lookup model with
  | some pricing =>
      let cost_input := ((tokens_input : ℚ) / 1000) * pricing.input_price_per_1k
      let cost_output := ((tokens_output : ℚ) / 1000) * pricing.output_price_per_1k
      ((cost_input, cost_output, cost_input + cost_output), [])
  | none =>
      let cost_input := ((tokens_input : ℚ) / 1000) * sonnet4Pricing.input_price_per_1k
      let cost_output := ((tokens_output : ℚ) / 1000) * sonnet4Pricing.output_price_per_1k
      ((cost_input, cost_output, cost_input + cost_output),
        [Msg.unknownModelWarning model])

/-- The total pricing lookup of the specification (§4.1): exact match, with
the designated default entry for unknown identifiers; never fails. -/
def priceOf (model : String) : ModelPricing :=
  (MODEL_PRICING.lookup model).getD sonnet4Pricing

/-- Python dict update `d[k] = d.get(k, 0) + 1`: increment in place if the
key is present, else append the key with count 1 (insertion order). -/
def bump : List (String × ℕ) → String → List (String × ℕ)
  | [], k => [(k, 1)]
  | (ka, v) :: rest, k =>
      if ka == k then (ka, v + 1) :: rest else (ka, v) :: bump rest k

/-- The fresh `SessionSummary` built by `start_session` (source lines
103–118): all aggregates zero/empty, no end time. -/
def freshSession (now : ℕ) (session_name cwd : String)
    (commit : Option String) : SessionSummary :=
  { session_id := now
    session_name := session_name
    start_time := now
    end_time := none
    project_path := cwd
    git_commit_start := commit
    git_commit_end := none
    total_entries := 0
    total_tokens_input := 0
    total_tokens_output := 0
    total_cost := 0
    operations := []
    models_used := []
    entries := [] }

/-- `CostTracker.start_session`: builds a fresh session with all aggregates
zero/empty and installs it as the active session, ignoring any prior state
(the source never reads the current-session file here). -/
def start_session (prior : Option SessionSummary) (now : ℕ)
    (session_name context cwd : String) (commit : Option String) :
    Option SessionSummary × List Msg :=
  let _ := prior
  (some (freshSession now session_name cwd commit),
    [Msg.sessionStarted session_name now] ++
      (if context = "" then [] else [Msg.contextNote context]))

/-- The `SessionEntry` constructed by `log_usage` (source lines 145–155). -/
def mkEntry (now tokens_input tokens_output : ℕ)
    (model operation context : String) : SessionEntry :=
  { timestamp := now
    operation := operation
    model := model
    tokens_input := tokens_input
    tokens_output := tokens_output
    cost_input := (calculate_cost model tokens_input tokens_output).1.1
    cost_output := (calculate_cost model tokens_input tokens_output).1.2.1
    total_cost := (calculate_cost model tokens_input tokens_output).1.2.2
    context := context }

/-- The aggregate update performed by `log_usage` (source lines 157–172):
append the entry and bump every total and both count maps. -/
def applyEntry (s : SessionSummary) (e : SessionEntry) : SessionSummary :=
  { s with
    entries := s.entries ++ [e]
    total_entries := s.total_entries + 1
    total_tokens_input := s.total_tokens_input + e.tokens_input
    total_tokens_output := s.total_tokens_output + e.tokens_output
    total_cost := s.total_cost + e.total_cost
    operations := bump s.operations e.operation
    models_used := bump s.models_used e.model }

/-- `CostTracker.log_usage`: with no active session, mutate nothing and
report the condition; otherwise price the event, append it and update all
aggregates. -/
def log_usage (st : Option SessionSummary) (now : ℕ)
    (tokens_input tokens_output : ℕ) (model operation context : String) :
    Option SessionSummary × List Msg :=
  match st with
  | none => (none, [Msg.noActiveSessionLog])
  | some s =>
      let e := mkEntry now tokens_input tokens_output model operation context
      (some (applyEntry s e),
        (calculate_cost model tokens_input tokens_output).2 ++
          [Msg.loggedUsage tokens_input tokens_output e.total_cost model] ++
          (if context = "" then [] else [Msg.contextNote context]))

/-- The stand-in end time used by the report (source line 225): the stored
end time if present, else the start time. -/
def report_end_time (s : SessionSummary) : ℕ :=
  s.end_time.getD s.start_time

/-- `duration.total_seconds()` for the report: stand-in end time minus
start time. -/
def duration_seconds (s : SessionSummary) : ℚ :=
  ((report_end_time s : ℚ)) - ((s.start_time : ℚ))

/-- Heuristic insight markers of the report's optimization section. -/
inductive Insight where
  | highCostSession
  | lowOutputRate
  | highOutputRate
  | heavyOpusUsage
deriving DecidableEq

/-- The output/input token quotient used by the report
(`total_tokens_output / max(total_tokens_input, 1)`). -/
def output_rate (s : SessionSummary) : ℚ :=
  (s.total_tokens_output : ℚ) / max (s.total_tokens_input : ℚ) 1

/-- The insight block (source lines 306–318): high-cost check, then the
mutually exclusive low/high output-quotient checks, then the heavy
Opus-usage check. -/
def insights_of (s : SessionSummary) : List Insight :=
  (if 10 < s.total_cost then [Insight.highCostSession] else []) ++
  (if output_rate s < 1/2 then [Insight.lowOutputRate]
   else if 2 < output_rate s then [Insight.highOutputRate] else []) ++
  (if 5 < (s.models_used.lookup "claude-opus-4").getD 0 then
      [Insight.heavyOpusUsage]
   else [])

/-- The per-key percentage lines of the breakdown sections
(`count / total_entries * 100`). -/
def breakdown (counts : List (String × ℕ)) (total_entries : ℕ) :
    List (String × ℚ) :=
  counts.map (fun p => (p.1, ((p.2 : ℚ) / (total_entries : ℚ)) * 100))

/-- The computed content of the markdown report. -/
structure Report where
  duration_seconds : ℚ
  total_cost : ℚ
  avg_cost_per_token : ℚ
  hourly_rate : ℚ
  output_rate : ℚ
  tokens_per_minute : ℚ
  operation_breakdown : List (String × ℚ)
  model_breakdown : List (String × ℚ)
  insights : List Insight
deriving DecidableEq

/-- `CostTracker.generate_markdown_report`: the derived metrics, breakdown
percentages and insights computed by the report generator. -/
def generate_markdown_report (s : SessionSummary) : Report :=
  { duration_seconds := duration_seconds s
    total_cost := s.total_cost
    avg_cost_per_token :=
      s.total_cost /
        ((max 1 (s.total_tokens_input + s.total_tokens_output) : ℕ) : ℚ)
    hourly_rate := s.total_cost / max (duration_seconds s / 3600) (1/100)
    output_rate := output_rate s
    tokens_per_minute :=
      (((s.total_tokens_input + s.total_tokens_output : ℕ)) : ℚ) /
        max (duration_seconds s / 60) 1
    operation_breakdown := breakdown s.operations s.total_entries
    model_breakdown := breakdown s.models_used s.total_entries
    insights := insights_of s }

/-- `CostTracker.end_session`: with no active session, report the condition
and return nothing; otherwise set the end time and final revision, render
the report when requested, and clear the active session. -/
def end_session (st : Option SessionSummary) (now : ℕ)
    (commit : Option String) (generate_report : Bool) :
    Option SessionSummary × Option Report × List Msg :=
  match st with
  | none => (none, none, [Msg.noActiveSessionEnd])
  | some s =>
      let final := { s with end_time := some now, git_commit_end := commit }
      let report :=
        if generate_report then some (generate_markdown_report final) else none
      (none, report,
        [Msg.sessionEnded s.session_name s.total_cost
            s.total_tokens_input s.total_tokens_output] ++
          (if generate_report then [Msg.reportSaved] else []))

/-- Seconds within the day, modelling the `HH:MM:SS` part the source slices
out of the ISO timestamp. -/
def timeOfDay (t : ℕ) : ℕ := t % 86400

/-- `CostTracker.status`: read-only; with no active session only the
no-session notice, otherwise the summary lines plus, when at least one
entry exists, a last-activity line for the final entry. -/
def status : Option SessionSummary → List Msg
  | none => [Msg.noActiveSessionStatus]
  | some s =>
      [Msg.statusActive s.session_name,
       Msg.statusCost s.total_cost,
       Msg.statusEntries s.total_entries,
       Msg.statusTokens s.total_tokens_input s.total_tokens_output] ++
        (match s.entries.getLast? with
         | some e => [Msg.lastActivity e.operation (timeOfDay e.timestamp)]
         | none => [])

/-- Arguments of one `log` call. -/
structure LogArgs where
  now : ℕ
  tokens_input : ℕ
  tokens_output : ℕ
  model : String
  operation : String
  context : String

/-- Run a sequence of `log` calls against a tracker state. -/
def runLogs : Option SessionSummary → List LogArgs → Option SessionSummary
  | st, [] => st
  | st, a :: rest =>
      runLogs (log_usage st a.now a.tokens_input a.tokens_output
        a.model a.operation a.context).1 rest

/-- The aggregate consistency invariant of §3: every total and every count map
agrees with an event-by-event recomputation over `entries`. -/
def Accurate (s : SessionSummary) : Prop :=
  s.total_entries = s.entries.length ∧
  s.total_tokens_input = (s.entries.map SessionEntry.tokens_input).sum ∧
  s.total_tokens_output = (s.entries.map SessionEntry.tokens_output).sum ∧
  s.total_cost = (s.entries.map SessionEntry.total_cost).sum ∧
  (∀ k, (s.operations.lookup k).getD 0 =
    s.entries.countP (fun e => e.operation == k)) ∧
  (∀ k, (s.models_used.lookup k).getD 0 =
    s.entries.countP (fun e => e.model == k)) ∧
  (s.operations.map Prod.snd).sum = s.total_entries ∧
  (s.models_used.map Prod.snd).sum = s.total_entries ∧
  (∀ p ∈ s.operations, 0 < p.2) ∧
  (∀ p ∈ s.models_used, 0 < p.2)

/-- Modelled from the spec (§4.3): the claimed duration rule in which an
absent end time is replaced by the current time. -/
def spec_duration_at (now : ℕ) (s : SessionSummary) : ℚ :=
  ((s.end_time.getD now : ℕ) : ℚ) - ((s.start_time : ℚ))

/-- Spec §4.3 formula: `averageCostPerToken`. -/
def spec_avg_cost_per_token (s : SessionSummary) : ℚ :=
  s.total_cost /
    max 1 ((s.total_tokens_input : ℚ) + (s.total_tokens_output : ℚ))

/-- Spec §4.3 formula: `hourlyRate` with the 0.01-hour floor. -/
def spec_hourly_rate (s : SessionSummary) : ℚ :=
  s.total_cost / max (duration_seconds s / 3600) (1/100)

/-- Spec §4.3 formula: the output-to-input token quotient. -/
def spec_output_over_input (s : SessionSummary) : ℚ :=
  (s.total_tokens_output : ℚ) / max (s.total_tokens_input : ℚ) 1

/-- Spec §4.3 formula: `tokensPerMinute` with the one-minute floor. -/
def spec_tokens_per_minute (s : SessionSummary) : ℚ :=
  ((s.total_tokens_input : ℚ) + (s.total_tokens_output : ℚ)) /
    max (duration_seconds s / 60) 1

/-- Scenario A, step 1: `start("demo")` at time 0. -/
def scenarioA_started : Option SessionSummary :=
  (start_session none 0 "demo" "" "" none).1

/-- Scenario A, step 2: `log(1500, 800, "claude-sonnet-4", "chat", "x")`. -/
def scenarioA_logged : Option SessionSummary :=
  (log_usage scenarioA_started 10 1500 800 "claude-sonnet-4" "chat" "x").1

/-- Scenario A, step 3: `end()` with report generation. -/
def scenarioA_ended : Option SessionSummary × Option Report × List Msg :=
  end_session scenarioA_logged 20 none true

/-- The insight list of scenario A's report. -/
def scenarioA_insights : List Insight :=
  ((scenarioA_ended.2.1).map Report.insights).getD []

/-- Scenario B, step 1: start a session at time 0. -/
def scenarioB_started : Option SessionSummary :=
  (start_session none 0 "b" "" "" none).1

/-- Scenario B, step 2: first `log` with unknown model "gpt-5". -/
def scenarioB_log1 : Option SessionSummary × List Msg :=
  log_usage scenarioB_started 1 100 200 "gpt-5" "chat" ""

/-- Scenario B, step 3: second `log` with unknown model "gpt-5". -/
def scenarioB_log2 : Option SessionSummary × List Msg :=
  log_usage scenarioB_log1.1 2 300 400 "gpt-5" "chat" ""

/-- A concrete entry used to exercise the status last-activity line:
timestamp 90061 seconds is 01:01:01 on the second day. -/
def statusDemoEntry : SessionEntry :=
  mkEntry 90061 5 7 "claude-sonnet-4" "chat" ""

/-- A concrete one-entry session for the status last-activity line. -/
def statusDemoSession : SessionSummary :=
  applyEntry (freshSession 0 "w2" "" none) statusDemoEntry

/-- The event scenario A's `log` call produces: 1500→800 tokens priced at
3/15 per thousand. -/
def entryA : SessionEntry :=
  { timestamp := 10
    operation := "chat"
    model := "claude-sonnet-4"
    tokens_input := 1500
    tokens_output := 800
    cost_input := 9/2
    cost_output := 12
    total_cost := 33/2
    context := "x" }

/-- The session state scenario A reaches after its `log` call. -/
def sessA : SessionSummary :=
  { session_id := 0
    session_name := "demo"
    start_time := 0
    end_time := none
    project_path := ""
    git_commit_start := none
    git_commit_end := none
    total_entries := 1
    total_tokens_input := 1500
    total_tokens_output := 800
    total_cost := 33/2
    operations := [("chat", 1)]
    models_used := [("claude-sonnet-4", 1)]
    entries := [entryA] }

/-- Scenario A's session as finalized by `end` at time 20. -/
def finalA : SessionSummary :=
  { sessA with end_time := some 20, git_commit_end := none }

/-- The first event of scenario B: 100→200 tokens at fallback pricing. -/
def entryB1 : SessionEntry :=
  { timestamp := 1
    operation := "chat"
    model := "gpt-5"
    tokens_input := 100
    tokens_output := 200
    cost_input := 3/10
    cost_output := 3
    total_cost := 33/10
    context := "" }

/-- The second event of scenario B: 300→400 tokens at fallback pricing. -/
def entryB2 : SessionEntry :=
  { timestamp := 2
    operation := "chat"
    model := "gpt-5"
    tokens_input := 300
    tokens_output := 400
    cost_input := 9/10
    cost_output := 6
    total_cost := 69/10
    context := "" }

/-- A session holding one event that was ended in the same second it
started (start time 7, end time 7): elapsed duration zero with a nonzero
entry count. -/
def zeroDurSession : SessionSummary :=
  { applyEntry (freshSession 7 "z" "" none)
      (mkEntry 7 50 60 "claude-haiku-3" "chat" "") with
    end_time := some 7 }

/-- The session state scenario B reaches after its two `log` calls. -/
def sessB : SessionSummary :=
  { session_id := 0
    session_name := "b"
    start_time := 0
    end_time := none
    project_path := ""
    git_commit_start := none
    git_commit_end := none
    total_entries := 2
    total_tokens_input := 400
    total_tokens_output := 600
    total_cost := 51/5
    operations := [("chat", 2)]
    models_used := [("gpt-5", 2)]
    entries := [entryB1, entryB2] }

theorem bump_lookup_self (d : List (String × ℕ)) (k : String) :
    ((bump d k).lookup k).getD 0 = (d.lookup k).getD 0 + 1 := by
  induction d with
  | nil => simp [bump]
  | cons p rest ih =>
      obtain ⟨ka, v⟩ := p
      by_cases h : ka = k
      · subst h
        simp [bump, List.lookup]
      · have hb1 : (ka == k) = false := beq_eq_false_iff_ne.mpr h
        have hb2 : (k == ka) = false := beq_eq_false_iff_ne.mpr (Ne.symm h)
        simp [bump, List.lookup, hb1, hb2, ih]

theorem bump_lookup_ne (d : List (String × ℕ)) (k q : String) (h : q ≠ k) :
    (bump d k).lookup q = d.lookup q := by
  induction d with
  | nil =>
      have hb : (q == k) = false := beq_eq_false_iff_ne.mpr h
      simp [bump, List.lookup, hb]
  | cons p rest ih =>
      obtain ⟨ka, v⟩ := p
      by_cases hk : ka = k
      · subst hk
        have hb : (q == ka) = false := beq_eq_false_iff_ne.mpr h
        simp [bump, List.lookup, hb]
      · have hbk : (ka == k) = false := beq_eq_false_iff_ne.mpr hk
        by_cases hq : q = ka
        · subst hq
          simp [bump, List.lookup, hbk]
        · have hbq : (q == ka) = false := beq_eq_false_iff_ne.mpr hq
          simp [bump, List.lookup, hbk, hbq, ih]

theorem bump_snd_sum (d : List (String × ℕ)) (k : String) :
    ((bump d k).map Prod.snd).sum = (d.map Prod.snd).sum + 1 := by
  induction d with
  | nil => simp [bump]
  | cons p rest ih =>
      obtain ⟨ka, v⟩ := p
      by_cases hk : ka = k
      · subst hk
        simp [bump]
        omega
      · simp [bump, hk, ih]
        omega

theorem bump_pos (d : List (String × ℕ)) (k : String)
    (h : ∀ p ∈ d, 0 < p.2) : ∀ p ∈ bump d k, 0 < p.2 := by
  induction d with
  | nil =>
      intro p hp
      simp [bump] at hp
      simp [hp]
  | cons q rest ih =>
      obtain ⟨ka, v⟩ := q
      by_cases hk : ka = k
      · subst hk
        intro p hp
        simp [bump] at hp
        rcases hp with hp | hp
        · simp [hp]
        · exact h p (List.mem_cons_of_mem _ hp)
      · intro p hp
        simp [bump, hk] at hp
        rcases hp with hp | hp
        · subst hp
          exact h (ka, v) (List.mem_cons_self _ _)
        · exact ih (fun r hr => h r (List.mem_cons_of_mem _ hr)) p hp

theorem counts_nil_of_sum_zero (d : List (String × ℕ))
    (hpos : ∀ p ∈ d, 0 < p.2) (hsum : (d.map Prod.snd).sum = 0) :
    d = [] := by
  cases d with
  | nil => rfl
  | cons p rest =>
      exfalso
      have h1 := hpos p (List.mem_cons_self p rest)
      have h2 : p.2 ≤ ((p :: rest).map Prod.snd).sum := by
        simp [List.map_cons, List.sum_cons]
      omega

theorem accurate_applyEntry (s : SessionSummary) (e : SessionEntry)
    (hs : Accurate s) : Accurate (applyEntry s e) := by
  obtain ⟨h1, h2, h3, h4, h5, h6, h7, h8, h9, h10⟩ := hs
  refine ⟨?_, ?_, ?_, ?_, ?_, ?_, ?_, ?_, ?_, ?_⟩
  · simp [applyEntry, h1]
  · simp [applyEntry, h2]
  · simp [applyEntry, h3]
  · simp [applyEntry, h4]
  · intro k
    by_cases hk : e.operation = k
    · subst hk
      simp only [applyEntry]
      rw [bump_lookup_self, h5]
      simp [List.countP_append]
    · simp only [applyEntry]
      rw [bump_lookup_ne _ _ _ (fun hc => hk hc.symm), h5]
      simp [List.countP_append, hk]
  · intro k
    by_cases hk : e.model = k
    · subst hk
      simp only [applyEntry]
      rw [bump_lookup_self, h6]
      simp [List.countP_append]
    · simp only [applyEntry]
      rw [bump_lookup_ne _ _ _ (fun hc => hk hc.symm), h6]
      simp [List.countP_append, hk]
  · simp only [applyEntry]
    rw [bump_snd_sum, h7]
  · simp only [applyEntry]
    rw [bump_snd_sum, h8]
  · exact bump_pos _ _ h9
  · exact bump_pos _ _ h10

theorem accurate_fresh (now : ℕ) (name cwd : String)
    (commit : Option String) : Accurate (freshSession now name cwd commit) := by
  refine ⟨rfl, rfl, rfl, rfl, ?_, ?_, rfl, rfl, ?_, ?_⟩ <;>
    simp [freshSession, List.lookup]

theorem runLogs_accurate (args : List LogArgs) (s : SessionSummary)
    (hs : Accurate s) :
    ∃ t, runLogs (some s) args = some t ∧ Accurate t := by
  induction args generalizing s with
  | nil => exact ⟨s, rfl, hs⟩
  | cons a rest ih =>
      have h2 := ih
        (applyEntry s (mkEntry a.now a.tokens_input a.tokens_output
          a.model a.operation a.context))
        (accurate_applyEntry _ _ hs)
      simpa [runLogs, log_usage] using h2

theorem lookup_sonnet4 :
    MODEL_PRICING.lookup "claude-sonnet-4" = some ⟨3, 15⟩ := rfl

theorem lookup_gpt5_none : MODEL_PRICING.lookup "gpt-5" = none := rfl

theorem lookup_opus_sessA :
    ([("claude-sonnet-4", (1 : ℕ))].lookup "claude-opus-4") = none := rfl

theorem lookup_opus_sessB :
    ([("gpt-5", (2 : ℕ))].lookup "claude-opus-4") = none := rfl

/-- C1: after any sequence of `log` calls within one active session,
`total_cost` equals the sum of the events' `total_cost`, the token totals
equal the per-event sums, `total_entries` equals the number of events, each
count-map entry equals the number of events carrying that key, and the
operation counts sum to `total_entries`. -/
theorem session_aggregates_invariant (prior : Option SessionSummary)
    (now : ℕ) (name ctx cwd : String) (commit : Option String)
    (args : List LogArgs) :
    ∃ s, runLogs (start_session prior now name ctx cwd commit).1 args =
        some s ∧
      s.total_cost = (s.entries.map SessionEntry.total_cost).sum ∧
      s.total_tokens_input = (s.entries.map SessionEntry.tokens_input).sum ∧
      s.total_tokens_output = (s.entries.map SessionEntry.tokens_output).sum ∧
      s.total_entries = s.entries.length ∧
      (∀ k, (s.operations.lookup k).getD 0 =
        s.entries.countP (fun e => e.operation == k)) ∧
      (∀ k, (s.models_used.lookup k).getD 0 =
        s.entries.countP (fun e => e.model == k)) ∧
      (s.operations.map Prod.snd).sum = s.total_entries := by
  obtain ⟨t, ht, hacc⟩ :=
    runLogs_accurate args (freshSession now name cwd commit)
      (accurate_fresh now name cwd commit)
  exact ⟨t, ht, hacc.2.2.2.1, hacc.2.1, hacc.2.2.1, hacc.1,
    hacc.2.2.2.2.1, hacc.2.2.2.2.2.1, hacc.2.2.2.2.2.2.1⟩

/-- C2: each cost computation multiplies tokens/1000 by the per-thousand
price of the looked-up entry and sums the parts; an unknown model falls
back to the `claude-sonnet-4` entry with a warning; the total lookup
`priceOf` agrees with the table on known models, so it never fails. -/
theorem calculate_cost_spec (model : String) (tin tout : ℕ) :
    (calculate_cost model tin tout).1 =
      (((tin : ℚ) / 1000) * (priceOf model).input_price_per_1k,
       ((tout : ℚ) / 1000) * (priceOf model).output_price_per_1k,
       ((tin : ℚ) / 1000) * (priceOf model).input_price_per_1k +
         ((tout : ℚ) / 1000) * (priceOf model).output_price_per_1k) ∧
    (MODEL_PRICING.lookup model = none →
      priceOf model = sonnet4Pricing ∧
      (calculate_cost model tin tout).2 =
        [Msg.unknownModelWarning model]) ∧
    (∀ p, MODEL_PRICING.lookup model = some p →
      priceOf model = p ∧ (calculate_cost model tin tout).2 = []) := by
  rcases h : MODEL_PRICING.lookup model with _ | p
  · refine ⟨?_, fun _ => ⟨?_, ?_⟩, fun p hp => by simp [h] at hp⟩ <;>
      simp [calculate_cost, priceOf, h]
  · refine ⟨?_, fun hn => by simp [h] at hn, fun q hq => ?_⟩
    · simp [calculate_cost, priceOf, h]
    · obtain rfl := Option.some.inj hq
      exact ⟨by simp [priceOf, h], by simp [calculate_cost, h]⟩

/-- C2 witness: the unknown model "gpt-5" is priced with the fallback entry
and produces exactly the warning message. -/
theorem calculate_cost_spec_witness :
    (calculate_cost "gpt-5" 1500 800).1 = (9/2, 12, 33/2) ∧
    (calculate_cost "gpt-5" 1500 800).2 =
      [Msg.unknownModelWarning "gpt-5"] := by
  obtain ⟨h1, h2, -⟩ := calculate_cost_spec "gpt-5" 1500 800
  have hnone : MODEL_PRICING.lookup "gpt-5" = none := rfl
  refine ⟨?_, (h2 hnone).2⟩
  rw [h1, (h2 hnone).1]
  simp only [sonnet4Pricing, Prod.mk.injEq]
  norm_num

/-- C3: `log`, `end` and `status` issued with no active session leave the
state at `none`, emit only the corresponding no-session notice, and `end`
returns no report. -/
theorem no_session_noop :
    (∀ now tin tout m op ctx,
      log_usage none now tin tout m op ctx =
        (none, [Msg.noActiveSessionLog])) ∧
    (∀ now commit gr,
      end_session none now commit gr =
        (none, none, [Msg.noActiveSessionEnd])) ∧
    status none = [Msg.noActiveSessionStatus] :=
  ⟨fun _ _ _ _ _ _ => rfl, fun _ _ _ => rfl, rfl⟩

/-- C4: scenario A — start("demo"), log(1500, 800, "claude-sonnet-4",
"chat", "x"), end(): the session cost is exactly 33/2 = 16.50, and the
report carries the high-cost insight and neither output-quotient
insight. -/
theorem scenarioA_report :
    scenarioA_logged.map SessionSummary.total_cost = some (33/2 : ℚ) ∧
    (scenarioA_ended.2.1).map Report.insights =
      some [Insight.highCostSession] ∧
    Insight.highCostSession ∈ scenarioA_insights ∧
    Insight.lowOutputRate ∉ scenarioA_insights ∧
    Insight.highOutputRate ∉ scenarioA_insights := by
  have hlog : scenarioA_logged = some sessA := by
    simp only [scenarioA_logged, scenarioA_started, start_session,
      log_usage, applyEntry, mkEntry, freshSession, calculate_cost,
      lookup_sonnet4, bump, sessA, entryA, List.nil_append,
      Option.some.injEq, SessionSummary.mk.injEq, SessionEntry.mk.injEq,
      List.cons.injEq]
    norm_num
  have hend : scenarioA_ended.2.1 = some (generate_markdown_report finalA) := by
    simp [scenarioA_ended, hlog, end_session, finalA]
  have hrep : (generate_markdown_report finalA).insights =
      [Insight.highCostSession] := by
    simp only [generate_markdown_report, insights_of, output_rate, finalA,
      sessA, lookup_opus_sessA]
    norm_num
  have hins : scenarioA_insights = [Insight.highCostSession] := by
    simp [scenarioA_insights, hend, hrep]
  refine ⟨by rw [hlog]; rfl, by rw [hend]; simp [hrep],
    by rw [hins]; decide, by rw [hins]; decide, by rw [hins]; decide⟩

/-- C5: scenario B — two `log` calls with unknown model "gpt-5": both
events are priced with the fallback claude-sonnet-4 entry, a warning is
emitted each time, the per-model count sits under the requested key
("gpt-5" ↦ 2), and no count exists under the substituted name. -/
theorem scenarioB_unknown_model :
    scenarioB_log2.1.map SessionSummary.models_used = some [("gpt-5", 2)] ∧
    scenarioB_log2.1.map
        (fun s => s.models_used.lookup "claude-sonnet-4") = some none ∧
    Msg.unknownModelWarning "gpt-5" ∈ scenarioB_log1.2 ∧
    Msg.unknownModelWarning "gpt-5" ∈ scenarioB_log2.2 ∧
    scenarioB_log2.1.map (fun s => s.entries.map SessionEntry.total_cost) =
      some [33/10, 69/10] := by
  have hlog2 : scenarioB_log2.1 = some sessB := by
    simp only [scenarioB_log2, scenarioB_log1, scenarioB_started,
      start_session, log_usage, applyEntry, mkEntry, freshSession,
      calculate_cost, lookup_gpt5_none, sonnet4Pricing, bump,
      beq_self_eq_true,
      List.nil_append, List.append_nil, List.cons_append,
      Option.some.injEq, SessionSummary.mk.injEq, SessionEntry.mk.injEq,
      List.cons.injEq, sessB, entryB1, entryB2]
    norm_num
  refine ⟨by rw [hlog2]; rfl, by rw [hlog2]; rfl, ?_, ?_,
    by rw [hlog2]; rfl⟩
  · exact List.mem_cons_self _ _
  · exact List.mem_cons_self _ _

/-- C6: for every reachable session with zero entries, both percentage
breakdowns are empty (the division-by-`total_entries` loops run zero
times), and for every session snapshot whatsoever with zero elapsed
duration — events or not — the hourly-rate and tokens-per-minute
denominators are the stated floors 0.01 and 1; report rendering is total
by construction. -/
theorem report_zero_guards (prior : Option SessionSummary) (now : ℕ)
    (name ctx cwd : String) (commit : Option String) (args : List LogArgs)
    (s : SessionSummary)
    (hreach : runLogs (start_session prior now name ctx cwd commit).1 args =
      some s) :
    (s.total_entries = 0 →
      (generate_markdown_report s).operation_breakdown = [] ∧
      (generate_markdown_report s).model_breakdown = []) ∧
    (∀ u : SessionSummary, duration_seconds u = 0 →
      (generate_markdown_report u).hourly_rate = u.total_cost / (1/100) ∧
      (generate_markdown_report u).tokens_per_minute =
        ((u.total_tokens_input + u.total_tokens_output : ℕ) : ℚ) / 1) := by
  obtain ⟨t, ht, hacc⟩ :=
    runLogs_accurate args (freshSession now name cwd commit)
      (accurate_fresh now name cwd commit)
  have ht2 : runLogs (start_session prior now name ctx cwd commit).1 args =
      some t := ht
  have hts : t = s := Option.some.inj (ht2.symm.trans hreach)
  subst hts
  constructor
  · intro h0
    have hops : t.operations = [] :=
      counts_nil_of_sum_zero _ hacc.2.2.2.2.2.2.2.2.1
        (by rw [hacc.2.2.2.2.2.2.1, h0])
    have hmods : t.models_used = [] :=
      counts_nil_of_sum_zero _ hacc.2.2.2.2.2.2.2.2.2
        (by rw [hacc.2.2.2.2.2.2.2.1, h0])
    exact ⟨by simp [generate_markdown_report, breakdown, hops],
      by simp [generate_markdown_report, breakdown, hmods]⟩
  · intro u hd
    constructor
    · show u.total_cost / max (duration_seconds u / 3600) (1/100) =
        u.total_cost / (1/100)
      rw [hd, zero_div, max_eq_right (by norm_num : (0:ℚ) ≤ 1/100)]
    · show (((u.total_tokens_input + u.total_tokens_output : ℕ)) : ℚ) /
        max (duration_seconds u / 60) 1 =
        (((u.total_tokens_input + u.total_tokens_output : ℕ)) : ℚ) / 1
      rw [hd, zero_div, max_eq_right (by norm_num : (0:ℚ) ≤ 1)]

/-- C6 witness: a freshly started, never-logged session renders empty
breakdowns, and a session holding one event that ended in its start second
(zero duration, nonzero entries) gets the floored hourly-rate
denominator. -/
theorem report_zero_guards_witness :
    (generate_markdown_report
      (freshSession 0 "w" "" none)).operation_breakdown = [] ∧
    (generate_markdown_report
      (freshSession 0 "w" "" none)).model_breakdown = [] ∧
    (generate_markdown_report zeroDurSession).hourly_rate =
      zeroDurSession.total_cost / (1/100) ∧
    (generate_markdown_report zeroDurSession).tokens_per_minute =
      ((zeroDurSession.total_tokens_input +
        zeroDurSession.total_tokens_output : ℕ) : ℚ) / 1 := by
  obtain ⟨h1, h2⟩ :=
    report_zero_guards none 0 "w" "" "" none []
      (freshSession 0 "w" "" none) rfl
  obtain ⟨h3, h4⟩ := h1 rfl
  have hd : duration_seconds zeroDurSession = 0 := by
    simp [duration_seconds, report_end_time, zeroDurSession, applyEntry,
      freshSession]
  obtain ⟨h5, h6⟩ := h2 zeroDurSession hd
  exact ⟨h3, h4, h5, h6⟩

/-- C7 counterexample: for a session with an absent end time started at
time 5, rendered when the current time is 100, the code's duration (zero,
start time as stand-in) differs from the claimed current-time-minus-start
duration (95). -/
theorem report_duration_current_time_refuted :
    ¬ (duration_seconds (freshSession 5 "s" "" none) =
        spec_duration_at 100 (freshSession 5 "s" "" none)) := by
  simp only [duration_seconds, report_end_time, spec_duration_at,
    freshSession, Option.getD_none]
  norm_num

/-- C7 amended: when the rendered session's end time is absent, the report
generator uses the start time as the stand-in, so the duration is zero
regardless of the current time. -/
theorem report_duration_start_standin (s : SessionSummary)
    (h : s.end_time = none) :
    duration_seconds s = 0 ∧
    (generate_markdown_report s).duration_seconds = 0 := by
  constructor <;>
    simp [generate_markdown_report, duration_seconds, report_end_time, h]

/-- C7 witness: a concrete never-ended session renders duration zero. -/
theorem report_duration_start_standin_witness :
    duration_seconds (freshSession 5 "s" "" none) = 0 ∧
    (generate_markdown_report
      (freshSession 5 "s" "" none)).duration_seconds = 0 :=
  report_duration_start_standin (freshSession 5 "s" "" none) rfl

/-- C8: the report's derived metrics equal the specification's formulas:
`totalCost / max(1, tokensIn+tokensOut)`,
`totalCost / max(durationSeconds/3600, 0.01)`,
`tokensOut / max(tokensIn, 1)` and
`(tokensIn+tokensOut) / max(durationSeconds/60, 1)`. -/
theorem report_metrics_match_spec (s : SessionSummary) :
    (generate_markdown_report s).avg_cost_per_token =
      spec_avg_cost_per_token s ∧
    (generate_markdown_report s).hourly_rate = spec_hourly_rate s ∧
    (generate_markdown_report s).output_rate = spec_output_over_input s ∧
    (generate_markdown_report s).tokens_per_minute =
      spec_tokens_per_minute s := by
  refine ⟨?_, rfl, rfl, ?_⟩
  · simp only [generate_markdown_report, spec_avg_cost_per_token]
    push_cast
    ring
  · simp only [generate_markdown_report, spec_tokens_per_minute]
    push_cast
    ring

/-- C9: `start` while a session is active overwrites it without any extra
warning: the result (new state and messages) is identical to starting from
no session, and the installed session has all aggregates zero/empty with
the prior session's events discarded. -/
theorem start_overwrites_active (prior : Option SessionSummary) (now : ℕ)
    (name ctx cwd : String) (commit : Option String) :
    start_session prior now name ctx cwd commit =
      start_session none now name ctx cwd commit ∧
    (start_session prior now name ctx cwd commit).1 =
      some (freshSession now name cwd commit) ∧
    (freshSession now name cwd commit).total_entries = 0 ∧
    (freshSession now name cwd commit).total_tokens_input = 0 ∧
    (freshSession now name cwd commit).total_tokens_output = 0 ∧
    (freshSession now name cwd commit).total_cost = 0 ∧
    (freshSession now name cwd commit).operations = [] ∧
    (freshSession now name cwd commit).models_used = [] ∧
    (freshSession now name cwd commit).entries = [] ∧
    (freshSession now name cwd commit).end_time = none :=
  ⟨rfl, rfl, rfl, rfl, rfl, rfl, rfl, rfl, rfl, rfl⟩

/-- C10: `status` on an active session with no entries prints exactly the
four summary lines and omits the last-activity line; with at least one
entry it appends a last-activity line describing the final entry's
operation and time of day. -/
theorem status_summary_and_last (s : SessionSummary) :
    (s.entries = [] → status (some s) =
      [Msg.statusActive s.session_name, Msg.statusCost s.total_cost,
       Msg.statusEntries s.total_entries,
       Msg.statusTokens s.total_tokens_input s.total_tokens_output]) ∧
    (∀ e, s.entries.getLast? = some e → status (some s) =
      [Msg.statusActive s.session_name, Msg.statusCost s.total_cost,
       Msg.statusEntries s.total_entries,
       Msg.statusTokens s.total_tokens_input s.total_tokens_output,
       Msg.lastActivity e.operation (timeOfDay e.timestamp)]) := by
  constructor
  · intro h
    simp [status, h]
  · intro e he
    simp [status, he]

/-- C10 witness: a fresh session prints only the summary; a one-entry
session appends the last-activity line (timestamp 90061 → 3661 seconds
into the day). -/
theorem status_summary_and_last_witness :
    status (some (freshSession 0 "w" "" none)) =
      [Msg.statusActive "w", Msg.statusCost 0, Msg.statusEntries 0,
       Msg.statusTokens 0 0] ∧
    status (some statusDemoSession) =
      [Msg.statusActive "w2", Msg.statusCost statusDemoSession.total_cost,
       Msg.statusEntries 1, Msg.statusTokens 5 7,
       Msg.lastActivity "chat" 3661] := by
  constructor
  · exact (status_summary_and_last _).1 rfl
  · exact (status_summary_and_last _).2 statusDemoEntry rfl

end CostTracker
